import Mathlib

/-!
Shallow embedding of the rscam v4l2 camera wrapper (src/lib.rs).

Device interactions (ioctl calls and mmap) are modelled as oracles: every
operation receives the driver response it consumes as an explicit argument,
with `none` standing for a call that fails at the OS level with an I/O
error.  Machine integers (u32) are modelled as Nat, reduced mod 2 ^ 32
exactly where the source can overflow (the wrapping u32 multiplications in
tune_stream).  Runtime assertions (`assert!` / `assert_eq!`) are modelled
by an explicit `Outcome.panic` result.
-/

namespace Rscam

/-- Error enum from lib.rs.  `IoErr` models `Error::Io(io::Error)` with the
payload dropped, `BadInterval`, `BadResolution`, `BadFormat` and `BadField`
are the negotiation errors. -/
inductive Error where
  | IoErr
  | BadInterval
  | BadResolution
  | BadFormat
  | BadField
deriving DecidableEq, Repr

/-- State enum of the Camera state machine from lib.rs. -/
inductive State where
  | Idle
  | Streaming
  | Aborted
deriving DecidableEq, Repr

/-- Result of an operation that contains a runtime assertion: either the
assertion fired (`panic`) or the operation ran to completion. -/
inductive Outcome (α : Type) where
  | panic
  | ok (a : α)
deriving DecidableEq, Repr

/-- Modelled from the spec: `v4l2::MappedRegion` lives in the v4l2 module
(not under src/); per the spec a Mapped Region is a fixed-size block of
driver-shared memory, so it is a base address plus a mapped capacity. -/
structure MappedRegion where
  ptr : Nat
  len : Nat
deriving DecidableEq, Repr

/-- FormatInfo.fourcc from lib.rs: pack four format bytes little-endian
into a u32 (`fmt[0] | fmt[1] << 8 | fmt[2] << 16 | fmt[3] << 24`).  The
slice indexing is total here via getD; all call sites in lib.rs first check
that the slice has length 4. -/
def FormatInfo.fourcc (fmt : List Nat) : Nat :=
  fmt.getD 0 0 ||| (fmt.getD 1 0) <<< 8 ||| (fmt.getD 2 0) <<< 16 ||| (fmt.getD 3 0) <<< 24

/-- Byte-by-byte unpacking of a fourcc, as done for the `format` field in
FormatInfo.new (`fourcc >> k & 0xff` for k = 0, 8, 16, 24). -/
def FormatInfo.unpack (fourcc : Nat) : List Nat :=
  [fourcc >>> 0 &&& 255, fourcc >>> 8 &&& 255, fourcc >>> 16 &&& 255, fourcc >>> 24 &&& 255]

lemma lor_shiftLeft_eq_add (k : Nat) : ∀ a c : Nat, a < 2 ^ k → a ||| c <<< k = a + c <<< k := by
  induction k with
  | zero =>
    intro a c h
    have ha : a = 0 := by omega
    subst ha
    simp
  | succ k ih =>
    intro a c h
    have hc : c <<< (k + 1) = Nat.bit false (c <<< k) := by
      rw [Nat.shiftLeft_succ, Nat.bit_val, Bool.toNat_false, Nat.add_zero]
    have hdiv : a.div2 < 2 ^ k := by
      rw [Nat.div2_val]
      rw [pow_succ] at h
      omega
    have h2 : a ||| c <<< (k + 1) = Nat.bit a.bodd (a.div2 + c <<< k) := by
      conv_lhs => rw [← Nat.bit_decomp a, hc]
      rw [Nat.lor_bit, Bool.or_false, ih a.div2 c hdiv]
    have hb : a = 2 * a.div2 + a.bodd.toNat := by
      conv_lhs => rw [← Nat.bit_decomp a]
      rw [Nat.bit_val]
    rw [h2, Nat.bit_val, Nat.shiftLeft_succ]
    omega

lemma fourcc_eq_arith (b0 b1 b2 b3 : Nat) (h0 : b0 < 256) (h1 : b1 < 256)
    (h2 : b2 < 256) (_h3 : b3 < 256) :
    FormatInfo.fourcc [b0, b1, b2, b3] = b0 + b1 * 256 + b2 * 65536 + b3 * 16777216 := by
  have s8 : b1 <<< 8 = b1 * 256 := by norm_num [Nat.shiftLeft_eq]
  have s16 : b2 <<< 16 = b2 * 65536 := by norm_num [Nat.shiftLeft_eq]
  have s24 : b3 <<< 24 = b3 * 16777216 := by norm_num [Nat.shiftLeft_eq]
  show b0 ||| b1 <<< 8 ||| b2 <<< 16 ||| b3 <<< 24 = _
  rw [lor_shiftLeft_eq_add 8 b0 b1 (by omega), s8,
    lor_shiftLeft_eq_add 16 (b0 + b1 * 256) b2 (by omega), s16,
    lor_shiftLeft_eq_add 24 (b0 + b1 * 256 + b2 * 65536) b3 (by omega), s24]

lemma unpack_eq_arith (x : Nat) :
    FormatInfo.unpack x = [x % 256, x / 256 % 256, x / 65536 % 256, x / 16777216 % 256] := by
  have m : ∀ y : Nat, y &&& 255 = y % 256 := by
    intro y
    have h := Nat.and_pow_two_sub_one_eq_mod y 8
    norm_num at h
    exact h
  unfold FormatInfo.unpack
  norm_num [Nat.shiftRight_eq_div_pow, m]

/-- Claim C10: four-character-code packing and unpacking are mutually
inverse: unpacking `FormatInfo.fourcc [b0, b1, b2, b3]` byte-by-byte (as in
`FormatInfo::new`) yields the original bytes, and packing the four unpacked
bytes of any u32 yields the u32 back. -/
theorem c10_fourcc_roundtrip (b0 b1 b2 b3 x : Nat) (h0 : b0 < 256) (h1 : b1 < 256)
    (h2 : b2 < 256) (h3 : b3 < 256) (hx : x < 2 ^ 32) :
    FormatInfo.unpack (FormatInfo.fourcc [b0, b1, b2, b3]) = [b0, b1, b2, b3] ∧
    FormatInfo.fourcc (FormatInfo.unpack x) = x := by
  constructor
  · rw [fourcc_eq_arith b0 b1 b2 b3 h0 h1 h2 h3, unpack_eq_arith]
    simp only [List.cons.injEq, and_true]
    refine ⟨by omega, by omega, by omega, by omega⟩
  · rw [unpack_eq_arith,
      fourcc_eq_arith _ _ _ _ (by omega) (by omega) (by omega) (by omega)]
    have hx32 : x < 4294967296 := by omega
    omega

/-- Witness for c10_fourcc_roundtrip, at the bytes of the MJPG fourcc and
at the u32 those bytes pack to. -/
theorem c10_fourcc_roundtrip_witness :
    FormatInfo.unpack (FormatInfo.fourcc [77, 74, 80, 71]) = [77, 74, 80, 71] ∧
    FormatInfo.fourcc (FormatInfo.unpack 1196444237) = 1196444237 :=
  c10_fourcc_roundtrip 77 74 80 71 1196444237 (by decide) (by decide) (by decide)
    (by decide) (by decide)

deriving instance DecidableEq for Except

/-- Camera struct from lib.rs: the state tag, the recorded resolution and
format, and the buffer pool.  The raw fd is omitted; the device behind it
is modelled by explicit oracle arguments. -/
structure Camera where
  state : State
  resolution : Nat × Nat
  format : List Nat
  buffers : List MappedRegion
deriving DecidableEq, Repr

/-- Config struct from lib.rs; the `field` variant is carried as its u32
value (`Field::None = 1`, ..., `Field::InterplacedBT = 9`). -/
structure Config where
  interval : Nat × Nat
  resolution : Nat × Nat
  format : List Nat
  field : Nat
  nbuffers : Nat
deriving DecidableEq, Repr

/-- Driver response to VIDIOC_S_FMT: the width, height, pixelformat and
field the driver reports back after the set-format request. -/
structure FmtResp where
  width : Nat
  height : Nat
  pixelformat : Nat
  field : Nat
deriving DecidableEq, Repr

/-- Camera::tune_format from lib.rs.  `resp = none` models the S_FMT ioctl
failing with an I/O error; `some r` is the format the driver reports back. -/
def tune_format (resolution : Nat × Nat) (format : List Nat) (fld : Nat)
    (resp : Option FmtResp) : Except Error Unit :=
  if format.length ≠ 4 then Except.error Error.BadFormat
  else
    match resp with
    | none => Except.error Error.IoErr
    | some r =>
      if resolution ≠ (r.width, r.height) then Except.error Error.BadResolution
      else if FormatInfo.fourcc format ≠ r.pixelformat then Except.error Error.BadFormat
      else if fld ≠ r.field then Except.error Error.BadField
      else Except.ok ()

/-- Wrapping u32 multiplication, as performed on the u32 operands in
Camera::tune_stream. -/
def u32mul (a b : Nat) : Nat := a * b % 2 ^ 32

/-- Camera::tune_stream from lib.rs.  `resp` is the timeperframe fraction
the driver reports back from VIDIOC_S_PARM (`none` = ioctl I/O failure). -/
def tune_stream (interval : Nat × Nat) (resp : Option (Nat × Nat)) : Except Error Unit :=
  match resp with
  | none => Except.error Error.IoErr
  | some (tn, td) =>
    let x := u32mul tn interval.2
    let y := u32mul td interval.1
    if x = 0 ∨ y = 0 then Except.error Error.BadInterval
    else if x ≠ y then Except.error Error.BadInterval
    else Except.ok ()

/-- Claim C3 counterexample: requesting resolution (640, 480) with format
YUYV while the driver reports back resolution (1280, 960) and pixelformat 0
(mismatches on both resolution and pixel code), tune_format returns
BadResolution — not BadFormat as the claim requires. -/
theorem c3_order_cex :
    tune_format (640, 480) [89, 85, 89, 86] 1
        (some { width := 1280, height := 960, pixelformat := 0, field := 1 }) =
      Except.error Error.BadResolution ∧
    Error.BadResolution ≠ Error.BadFormat := by
  decide

/-- Claim C3 amended: the mismatch checks are performed in the order format
code length (before any device call, i.e. for every response including an
ioctl failure), then resolution, then pixel code, then field mode — so when
the driver reports mismatches on both pixel code and resolution, the
returned error is BadResolution. -/
theorem c3_tune_format_order :
    (∀ res fmt fld resp, fmt.length ≠ 4 →
        tune_format res fmt fld resp = Except.error Error.BadFormat) ∧
    (∀ res fmt fld (r : FmtResp), fmt.length = 4 → res ≠ (r.width, r.height) →
        tune_format res fmt fld (some r) = Except.error Error.BadResolution) ∧
    (∀ res fmt fld (r : FmtResp), fmt.length = 4 → res = (r.width, r.height) →
        FormatInfo.fourcc fmt ≠ r.pixelformat →
        tune_format res fmt fld (some r) = Except.error Error.BadFormat) ∧
    (∀ res fmt fld (r : FmtResp), fmt.length = 4 → res = (r.width, r.height) →
        FormatInfo.fourcc fmt = r.pixelformat → fld ≠ r.field →
        tune_format res fmt fld (some r) = Except.error Error.BadField) ∧
    (∀ res fmt fld (r : FmtResp), fmt.length = 4 → res = (r.width, r.height) →
        FormatInfo.fourcc fmt = r.pixelformat → fld = r.field →
        tune_format res fmt fld (some r) = Except.ok ()) := by
  refine ⟨?_, ?_, ?_, ?_, ?_⟩ <;> intros <;> simp_all [tune_format]

/-- Witness for c3_tune_format_order: a resolution-only mismatch yields
BadResolution. -/
theorem c3_tune_format_order_witness :
    tune_format (640, 480) [89, 85, 89, 86] 1
        (some { width := 640, height := 481, pixelformat := 0, field := 1 }) =
      Except.error Error.BadResolution :=
  c3_tune_format_order.2.1 (640, 480) [89, 85, 89, 86] 1
    { width := 640, height := 481, pixelformat := 0, field := 1 } (by decide) (by decide)

/-- Claim C4 counterexample: requested interval (1, 30) with the driver
reporting back timeperframe (0, 0): both cross-products are 0, hence equal
(0·30 = 0·1), yet the negotiation step rejects with BadInterval rather than
succeeding. -/
theorem c4_cross_cex :
    tune_stream (1, 30) (some (0, 0)) = Except.error Error.BadInterval ∧
    0 * 30 = 0 * 1 := by
  decide

/-- Claim C4 amended: with the driver reporting timeperframe (an, ad), the
interval negotiation step for request (rn, rd) succeeds iff the two u32
cross-products an·rd and ad·rn (wrapping, mod 2 ^ 32) are equal and
nonzero; the comparison is exact integer arithmetic, and in particular
requesting (1, 30) with the driver honoring it exactly passes the check. -/
theorem c4_tune_stream_iff :
    (∀ rn rd an ad : Nat,
        tune_stream (rn, rd) (some (an, ad)) = Except.ok () ↔
          (u32mul an rd = u32mul ad rn ∧ u32mul an rd ≠ 0)) ∧
    tune_stream (1, 30) (some (1, 30)) = Except.ok () := by
  constructor
  · intro rn rd an ad
    constructor
    · intro h
      by_cases h1 : u32mul an rd = 0 ∨ u32mul ad rn = 0
      · simp [tune_stream, h1] at h
      · by_cases h2 : u32mul an rd = u32mul ad rn
        · exact ⟨h2, fun h0 => h1 (Or.inl h0)⟩
        · simp [tune_stream, h1, h2] at h
    · rintro ⟨heq, hne⟩
      have h2 : u32mul ad rn ≠ 0 := by
        rw [← heq]
        exact hne
      have h1 : ¬(u32mul an rd = 0 ∨ u32mul ad rn = 0) := by
        rintro (h0 | h0)
        · exact hne h0
        · exact h2 h0
      simp [tune_stream, h1, heq, h2]
  · decide

/-- Oracle for Camera::alloc_buffers: whether VIDIOC_REQBUFS succeeds, the
length VIDIOC_QUERYBUF reports for each index (`none` = ioctl failure), and
the address v4l2::mmap returns for each index (`none` = mmap failure). -/
structure AllocOracle where
  reqbufs_ok : Bool
  querybuf : Nat → Option Nat
  mmap : Nat → Option Nat

/-- Loop of Camera::alloc_buffers: for each index, query the buffer length
and map that region, pushing each mapped region onto the pool; a `try!`
failure returns the error immediately, keeping the regions pushed so far. -/
def alloc_loop (o : AllocOracle) (i fuel : Nat) (bufs : List MappedRegion) :
    List MappedRegion × Option Error :=
  match fuel with
  | 0 => (bufs, none)
  | fuel + 1 =>
    match o.querybuf i with
    | none => (bufs, some Error.IoErr)
    | some len =>
      match o.mmap i with
      | none => (bufs, some Error.IoErr)
      | some addr => alloc_loop o (i + 1) fuel (bufs ++ [{ ptr := addr, len := len }])

/-- Camera::alloc_buffers from lib.rs: request nbuffers from the driver,
then run the query-and-map loop, pushing onto the existing pool. -/
def alloc_buffers (cam : Camera) (nbuffers : Nat) (o : AllocOracle) :
    Camera × Option Error :=
  if o.reqbufs_ok = false then (cam, some Error.IoErr)
  else
    let r := alloc_loop o 0 nbuffers cam.buffers
    ({ cam with buffers := r.1 }, r.2)

/-- Camera::free_buffers from lib.rs: clear the pool (each Arc dropped
there unmaps its region once the last reference is gone). -/
def free_buffers (cam : Camera) : Camera :=
  { cam with buffers := [] }

/-- Oracle for Camera::streamon: whether each VIDIOC_QBUF succeeds, and
whether VIDIOC_STREAMON succeeds. -/
structure StreamOnOracle where
  qbuf_ok : Nat → Bool
  streamon_ok : Bool

/-- Camera::streamon from lib.rs: queue every buffer index of the pool,
then issue STREAMON; the first ioctl failure aborts with an I/O error. -/
def streamon (cam : Camera) (o : StreamOnOracle) : Option Error :=
  if (List.range cam.buffers.length).all o.qbuf_ok then
    if o.streamon_ok then none else some Error.IoErr
  else some Error.IoErr

/-- Driver responses consumed by a single Camera::start call. -/
structure Driver where
  s_fmt : Option FmtResp
  s_parm : Option (Nat × Nat)
  alloc : AllocOracle
  son : StreamOnOracle

/-- Camera::start from lib.rs.  The `assert_eq!(self.state, State::Idle)`
is modelled by Outcome.panic; a streamon failure frees the buffers before
the error is returned; on full success the requested resolution and the
four format bytes are recorded and the state becomes Streaming. -/
def start (cam : Camera) (cfg : Config) (d : Driver) : Outcome (Camera × Option Error) :=
  if cam.state ≠ State.Idle then Outcome.panic
  else
    match tune_format cfg.resolution cfg.format cfg.field d.s_fmt with
    | Except.error e => Outcome.ok (cam, some e)
    | Except.ok _ =>
      match tune_stream cfg.interval d.s_parm with
      | Except.error e => Outcome.ok (cam, some e)
      | Except.ok _ =>
        match alloc_buffers cam cfg.nbuffers d.alloc with
        | (cam1, some e) => Outcome.ok (cam1, some e)
        | (cam1, none) =>
          match streamon cam1 d.son with
          | some e => Outcome.ok (free_buffers cam1, some e)
          | none =>
            Outcome.ok ({ cam1 with
              resolution := cfg.resolution,
              format := [cfg.format.getD 0 0, cfg.format.getD 1 0,
                cfg.format.getD 2 0, cfg.format.getD 3 0],
              state := State.Streaming }, none)

/-- Driver response to VIDIOC_DQBUF: the dequeued buffer index and the
driver-reported number of bytes used. -/
structure DqbufResp where
  index : Nat
  bytesused : Nat
deriving DecidableEq, Repr

/-- Frame struct from lib.rs: resolution and format metadata, the shared
mapped region, the driver-reported used length, and the dequeued buffer
index kept for the re-queue on drop. -/
structure Frame where
  resolution : Nat × Nat
  format : List Nat
  region : MappedRegion
  length : Nat
  index : Nat
deriving DecidableEq, Repr

/-- Frame's Deref impl from lib.rs exposes for reading a slice of exactly
`length` bytes of the region; this is the byte length of that slice. -/
def Frame.derefLen (f : Frame) : Nat := f.length

/-- Camera::capture from lib.rs.  Panics when not Streaming; an I/O failure
of the blocking VIDIOC_DQBUF is `resp = none`; a driver-reported index out
of pool bounds trips `assert!(buf.index < self.buffers.len())`. -/
def capture (cam : Camera) (resp : Option DqbufResp) : Outcome (Except Error Frame) :=
  if cam.state ≠ State.Streaming then Outcome.panic
  else
    match resp with
    | none => Outcome.ok (Except.error Error.IoErr)
    | some b =>
      if h : b.index < cam.buffers.length then
        Outcome.ok (Except.ok
          { resolution := cam.resolution, format := cam.format,
            region := cam.buffers.get ⟨b.index, h⟩,
            length := b.bytesused, index := b.index })
      else Outcome.panic

/-- Requests a teardown path issues to the driver. -/
inductive Req where
  | qbuf (index : Nat)
deriving DecidableEq, Repr

/-- Frame's Drop impl from lib.rs: the re-queue of the frame's buffer is
issued unconditionally and its result — success or failure, `requeue_ok` —
is discarded by the `let _ = ...`; drop itself propagates no error.  The
result pairs the requests issued with the error propagated (always none). -/
def frameDrop (f : Frame) (requeue_ok : Bool) : List Req × Option Error :=
  let res : Except Error Unit :=
    if requeue_ok then Except.ok () else Except.error Error.IoErr
  let _ := res
  ([Req.qbuf f.index], none)

/-- Camera::stop from lib.rs: assert Streaming, `try!(self.streamoff())`
(early return on a streamoff failure), then free_buffers and the Aborted
state. -/
def stop (cam : Camera) (streamoff_ok : Bool) : Outcome (Camera × Option Error) :=
  if cam.state ≠ State.Streaming then Outcome.panic
  else if streamoff_ok = false then Outcome.ok (cam, some Error.IoErr)
  else Outcome.ok ({ free_buffers cam with state := State.Aborted }, none)

/-- Camera's Drop impl from lib.rs (the final close of the fd is outside
the model): if still Streaming, perform the stop transition discarding its
error; otherwise leave the session untouched. -/
def cameraDrop (cam : Camera) (streamoff_ok : Bool) : Camera :=
  if cam.state = State.Streaming then
    match stop cam streamoff_ok with
    | Outcome.panic => cam
    | Outcome.ok (c, _) => c
  else cam

/-- Concrete mapped region used by the scenario theorems. -/
def region0 : MappedRegion := { ptr := 4096, len := 100 }

/-- Freshly opened session (Camera::new): Idle, zeroed metadata, empty pool. -/
def camIdle : Camera :=
  { state := State.Idle, resolution := (0, 0), format := [0, 0, 0, 0], buffers := [] }

/-- A Streaming session holding one mapped buffer of capacity 100. -/
def camStreaming : Camera :=
  { state := State.Streaming, resolution := (640, 480), format := [89, 85, 89, 86],
    buffers := [region0] }

/-- Claim C1 counterexample: a Streaming session with one mapped buffer
whose streamoff ioctl fails: stop returns the I/O error, yet the buffer is
still in the pool — the release is skipped on the error path. -/
theorem c1_stop_cex :
    stop camStreaming false = Outcome.ok (camStreaming, some Error.IoErr) ∧
    camStreaming.buffers.length = 1 := by
  decide

/-- Claim C1 amended: stop issues streamoff; when it succeeds the pool is
released (zero buffers) and the state becomes Aborted, but when the
streamoff request fails the error is returned immediately with the pool
intact (buffers still mapped) and the state still Streaming. -/
theorem c1_stop_spec (cam : Camera) (ok : Bool) (h : cam.state = State.Streaming) :
    stop cam ok =
      if ok then Outcome.ok ({ cam with buffers := [], state := State.Aborted }, none)
      else Outcome.ok (cam, some Error.IoErr) := by
  cases ok <;> simp [stop, h, free_buffers]

/-- Witness for c1_stop_spec: the concrete Streaming camera with a
succeeding streamoff ends Aborted with an empty pool. -/
theorem c1_stop_spec_witness :
    stop camStreaming true =
      Outcome.ok ({ camStreaming with buffers := [], state := State.Aborted }, none) := by
  have h := c1_stop_spec camStreaming true (by decide)
  simpa using h

lemma alloc_loop_append (o : AllocOracle) :
    ∀ fuel i bufs, alloc_loop o i fuel bufs =
      (bufs ++ (alloc_loop o i fuel []).1, (alloc_loop o i fuel []).2) := by
  intro fuel
  induction fuel with
  | zero =>
    intro i bufs
    simp [alloc_loop]
  | succ fuel ih =>
    intro i bufs
    cases hq : o.querybuf i with
    | none => simp [alloc_loop, hq]
    | some len =>
      cases hm : o.mmap i with
      | none => simp [alloc_loop, hq, hm]
      | some addr =>
        simp only [alloc_loop, hq, hm, List.nil_append]
        rw [ih, ih (i + 1) [MappedRegion.mk addr len]]
        simp

/-- Oracle where index 0 queries and maps fine but the QUERYBUF for index 1
fails with an I/O error. -/
def oPartial : AllocOracle :=
  { reqbufs_ok := true,
    querybuf := fun i => if i = 0 then some 100 else none,
    mmap := fun _ => some 4096 }

/-- Driver whose negotiation succeeds for cfgYuyv and whose buffer
allocation is oPartial. -/
def dPartial : Driver :=
  { s_fmt := some { width := 640, height := 480,
                    pixelformat := FormatInfo.fourcc [89, 85, 89, 86], field := 1 },
    s_parm := some (1, 30),
    alloc := oPartial,
    son := { qbuf_ok := fun _ => true, streamon_ok := true } }

/-- Configuration requesting YUYV 640x480 at interval (1, 30) with 2
buffers. -/
def cfgYuyv : Config :=
  { interval := (1, 30), resolution := (640, 480), format := [89, 85, 89, 86],
    field := 1, nbuffers := 2 }

/-- Claim C2 counterexample: allocating 2 buffers where index 0 maps
successfully and the per-index query for index 1 fails: start returns the
I/O error, but the session holds 1 mapped region — not zero. -/
theorem c2_alloc_cex :
    start camIdle cfgYuyv dPartial =
      Outcome.ok ({ camIdle with buffers := [{ ptr := 4096, len := 100 }] },
        some Error.IoErr) ∧
    ({ camIdle with buffers := [{ ptr := 4096, len := 100 }] } : Camera).buffers.length = 1 := by
  decide

/-- Claim C2 amended: buffer allocation performs no rollback: whether or
not the call fails partway, the pool afterwards is the old pool plus every
region mapped before the failure point, so the regions mapped so far are
retained — not unmapped and removed — when the error is returned. -/
theorem c2_alloc_no_rollback (cam : Camera) (n : Nat) (o : AllocOracle) :
    (alloc_buffers cam n o).1.buffers =
      cam.buffers ++ (if o.reqbufs_ok then (alloc_loop o 0 n []).1 else []) := by
  by_cases h : o.reqbufs_ok = true
  · simp [alloc_buffers, h, alloc_loop_append o n 0 cam.buffers]
  · have h2 : o.reqbufs_ok = false := by
      cases hb : o.reqbufs_ok
      · rfl
      · exact absurd hb h
    simp [alloc_buffers, h2]

lemma tune_format_ok_len (res : Nat × Nat) (fmt : List Nat) (fld : Nat)
    (resp : Option FmtResp) (h : tune_format res fmt fld resp = Except.ok ()) :
    fmt.length = 4 := by
  by_cases hl : fmt.length = 4
  · exact hl
  · simp [tune_format, hl] at h

lemma list_getD_four : ∀ l : List Nat, l.length = 4 →
    [l.getD 0 0, l.getD 1 0, l.getD 2 0, l.getD 3 0] = l
  | [a, b, c, d], _ => rfl
  | [], h => by simp at h
  | [_], h => by simp at h
  | [_, _], h => by simp at h
  | [_, _, _], h => by simp at h
  | _ :: _ :: _ :: _ :: _ :: t, h => by
    simp only [List.length_cons] at h
    omega

lemma streamon_err (cam : Camera) (o : StreamOnOracle) (e : Error)
    (h : streamon cam o = some e) : e = Error.IoErr := by
  unfold streamon at h
  split_ifs at h <;> simp_all

lemma alloc_loop_err (o : AllocOracle) :
    ∀ fuel i bufs e, (alloc_loop o i fuel bufs).2 = some e → e = Error.IoErr := by
  intro fuel
  induction fuel with
  | zero =>
    intro i bufs e h
    simp [alloc_loop] at h
  | succ fuel ih =>
    intro i bufs e h
    cases hq : o.querybuf i with
    | none =>
      simp [alloc_loop, hq] at h
      simp [h]
    | some len =>
      cases hm : o.mmap i with
      | none =>
        simp [alloc_loop, hq, hm] at h
        simp [h]
      | some addr =>
        simp only [alloc_loop, hq, hm] at h
        exact ih _ _ _ h

lemma alloc_buffers_err (cam : Camera) (n : Nat) (o : AllocOracle) (e : Error)
    (h : (alloc_buffers cam n o).2 = some e) : e = Error.IoErr := by
  unfold alloc_buffers at h
  split_ifs at h with hr
  · simp at h
    simp [h]
  · simp only at h
    exact alloc_loop_err o n 0 cam.buffers e h

/-- Claim C5 amended: from Idle, start either succeeds — transitioning to
Streaming and recording exactly the requested resolution and format — or
fails with a Bad* negotiation error leaving the session exactly as it was
(Idle, no buffers added), or fails with an I/O error (in which case a
partially performed buffer allocation may be retained). -/
theorem c5_start_cases (cam : Camera) (cfg : Config) (d : Driver)
    (cam2 : Camera) (e : Option Error) (hIdle : cam.state = State.Idle)
    (h : start cam cfg d = Outcome.ok (cam2, e)) :
    (e = none → cam2.state = State.Streaming ∧ cam2.resolution = cfg.resolution ∧
      cam2.format = cfg.format) ∧
    (∀ err, e = some err → err ≠ Error.IoErr → cam2 = cam) := by
  rw [start] at h
  simp only [hIdle, ne_eq, not_true_eq_false, if_false] at h
  cases hf : tune_format cfg.resolution cfg.format cfg.field d.s_fmt with
  | error e1 =>
    rw [hf] at h
    simp only [Outcome.ok.injEq, Prod.mk.injEq] at h
    obtain ⟨h1, h2⟩ := h
    subst h1
    constructor
    · intro he
      rw [← h2] at he
      simp at he
    · intro err he hne
      rfl
  | ok u =>
    rw [hf] at h
    cases hp : tune_stream cfg.interval d.s_parm with
    | error e1 =>
      rw [hp] at h
      simp only [Outcome.ok.injEq, Prod.mk.injEq] at h
      obtain ⟨h1, h2⟩ := h
      subst h1
      constructor
      · intro he
        rw [← h2] at he
        simp at he
      · intro err he hne
        rfl
    | ok v =>
      rw [hp] at h
      rcases ha : alloc_buffers cam cfg.nbuffers d.alloc with ⟨cam1, r2⟩
      rw [ha] at h
      cases r2 with
      | some e1 =>
        simp only [Outcome.ok.injEq, Prod.mk.injEq] at h
        obtain ⟨h1, h2⟩ := h
        subst h1
        have he1 : e1 = Error.IoErr := by
          apply alloc_buffers_err cam cfg.nbuffers d.alloc
          rw [ha]
        constructor
        · intro he
          rw [← h2] at he
          simp at he
        · intro err he hne
          rw [← h2] at he
          simp only [Option.some.injEq] at he
          subst he
          subst he1
          exact absurd rfl hne
      | none =>
        cases hs : streamon cam1 d.son with
        | some e2 =>
          simp only [hs, Outcome.ok.injEq, Prod.mk.injEq] at h
          obtain ⟨h1, h2⟩ := h
          subst h1
          have he2 : e2 = Error.IoErr := streamon_err cam1 d.son e2 hs
          constructor
          · intro he
            rw [← h2] at he
            simp at he
          · intro err he hne
            rw [← h2] at he
            simp only [Option.some.injEq] at he
            subst he
            subst he2
            exact absurd rfl hne
        | none =>
          simp only [hs, Outcome.ok.injEq, Prod.mk.injEq] at h
          obtain ⟨h1, h2⟩ := h
          subst h1
          constructor
          · intro he
            have hfmt : cfg.format.length = 4 := tune_format_ok_len _ _ _ _ hf
            refine ⟨rfl, rfl, ?_⟩
            exact list_getD_four cfg.format hfmt
          · intro err he hne
            rw [← h2] at he
            simp at he

/-- Driver whose S_FMT ioctl itself fails with an I/O error. -/
def dBadIo : Driver :=
  { s_fmt := none,
    s_parm := some (1, 30),
    alloc := oPartial,
    son := { qbuf_ok := fun _ => true, streamon_ok := true } }

/-- Claim C5 counterexample: from Idle, with the S_FMT ioctl failing at the
OS level, start fails with the I/O error — which is none of the Bad*
negotiation errors — so the claimed disjunction (success, or a failure with
a specific Bad* negotiation error) does not hold for this call. -/
theorem c5_start_cex :
    start camIdle cfgYuyv dBadIo = Outcome.ok (camIdle, some Error.IoErr) ∧
    Error.IoErr ≠ Error.BadFormat ∧ Error.IoErr ≠ Error.BadResolution ∧
    Error.IoErr ≠ Error.BadInterval ∧ Error.IoErr ≠ Error.BadField := by
  decide

/-- Driver for which the whole start sequence succeeds, mapping two
buffers. -/
def dGood : Driver :=
  { s_fmt := some { width := 640, height := 480,
                    pixelformat := FormatInfo.fourcc [89, 85, 89, 86], field := 1 },
    s_parm := some (1, 30),
    alloc := { reqbufs_ok := true, querybuf := fun _ => some 100,
               mmap := fun i => some (4096 * (i + 1)) },
    son := { qbuf_ok := fun _ => true, streamon_ok := true } }

/-- Session state after the successful start of camIdle with cfgYuyv
against dGood. -/
def camStarted : Camera :=
  { state := State.Streaming, resolution := (640, 480), format := [89, 85, 89, 86],
    buffers := [{ ptr := 4096, len := 100 }, { ptr := 8192, len := 100 }] }

/-- Witness for c5_start_cases at the concrete successful start. -/
theorem c5_start_cases_witness :
    camStarted.state = State.Streaming ∧ camStarted.resolution = cfgYuyv.resolution ∧
    camStarted.format = cfgYuyv.format :=
  (c5_start_cases camIdle cfgYuyv dGood camStarted none (by decide) (by decide)).1 rfl

/-- Claim C6 counterexample: a Streaming session whose single region has
mapped capacity 100, while the driver reports 200 bytes used: capture
succeeds and the Frame exposes 200 readable bytes, exceeding its region's
capacity — the code never validates bytesused against the capacity. -/
theorem c6_len_cex :
    capture camStreaming (some { index := 0, bytesused := 200 }) =
      Outcome.ok (Except.ok
        { resolution := (640, 480), format := [89, 85, 89, 86],
          region := region0, length := 200, index := 0 }) ∧
    region0.len < 200 := by
  decide

/-- Claim C6 amended: a Frame produced by a successful capture has byte
length exactly the driver-reported used length, referencing a region of the
pool, with no validation against the region's capacity; whenever the
driver-reported used length is at most that capacity, the Frame's readable
byte length is ≤ its region's mapped capacity. -/
theorem c6_frame_len (cam : Camera) (b : DqbufResp) (f : Frame)
    (hS : cam.state = State.Streaming)
    (h : capture cam (some b) = Outcome.ok (Except.ok f)) :
    f.length = b.bytesused ∧ f.region ∈ cam.buffers ∧
    (b.bytesused ≤ f.region.len → f.derefLen ≤ f.region.len) := by
  by_cases hlt : b.index < cam.buffers.length
  · simp only [capture, hS, ne_eq, not_true_eq_false, if_false, hlt, dif_pos,
      Outcome.ok.injEq, Except.ok.injEq] at h
    subst h
    refine ⟨rfl, List.get_mem _ _ _, ?_⟩
    intro hle
    exact hle
  · simp [capture, hS, hlt] at h

/-- Frame produced below by capturing from camStreaming with 50 bytes
used. -/
def frame50 : Frame :=
  { resolution := (640, 480), format := [89, 85, 89, 86], region := region0,
    length := 50, index := 0 }

/-- Witness for c6_frame_len at a concrete in-capacity capture. -/
theorem c6_frame_len_witness :
    frame50.length = 50 ∧ frame50.region ∈ camStreaming.buffers ∧
    (50 ≤ frame50.region.len → frame50.derefLen ≤ frame50.region.len) :=
  c6_frame_len camStreaming { index := 0, bytesused := 50 } frame50 (by decide) (by decide)

/-- Claim C7: in Streaming, a driver-returned buffer index outside the pool
bounds makes capture abort fatally (the assert fires — a panic, not a
recoverable returned error); an in-bounds index yields a Frame wrapping
exactly that index's region and the driver-reported used length. -/
theorem c7_capture_bounds (cam : Camera) (b : DqbufResp)
    (hS : cam.state = State.Streaming) :
    (cam.buffers.length ≤ b.index → capture cam (some b) = Outcome.panic) ∧
    (∀ h : b.index < cam.buffers.length,
      capture cam (some b) = Outcome.ok (Except.ok
        { resolution := cam.resolution, format := cam.format,
          region := cam.buffers.get ⟨b.index, h⟩,
          length := b.bytesused, index := b.index })) := by
  constructor
  · intro hge
    have hlt : ¬ b.index < cam.buffers.length := by omega
    simp [capture, hS, hlt]
  · intro hlt
    simp [capture, hS, hlt]

/-- Witness for c7_capture_bounds: index 5 against a pool of one buffer
panics. -/
theorem c7_capture_bounds_witness :
    capture camStreaming (some { index := 5, bytesused := 0 }) = Outcome.panic :=
  (c7_capture_bounds camStreaming { index := 5, bytesused := 0 } (by decide)).1 (by decide)

/-- Claim C8: dropping a Frame unconditionally issues the re-queue of its
buffer index to the driver, and a failure of that request is swallowed: the
drop propagates no error to any caller, whatever the request's result. -/
theorem c8_frame_drop (f : Frame) (requeue_ok : Bool) :
    frameDrop f requeue_ok = ([Req.qbuf f.index], none) := by
  rfl

/-- Claim C9: pool release is idempotent — releasing twice equals releasing
once, and releasing an empty pool is a no-op — and after a successful stop
the session is Aborted, so its teardown (drop) performs neither the stop
transition nor a second release: the session is left untouched, with no
error on either path. -/
theorem c9_idempotent :
    (∀ cam : Camera, free_buffers (free_buffers cam) = free_buffers cam) ∧
    (∀ cam : Camera, cam.buffers = [] → free_buffers cam = cam) ∧
    (∀ (cam cam2 : Camera) (ok : Bool), cam.state = State.Streaming →
      stop cam ok = Outcome.ok (cam2, none) →
      cam2.state = State.Aborted ∧ cam2.buffers = [] ∧
      ∀ ok2 : Bool, cameraDrop cam2 ok2 = cam2) := by
  refine ⟨fun cam => rfl, ?_, ?_⟩
  · intro cam h
    cases cam
    simp_all [free_buffers]
  · intro cam cam2 ok hS h
    cases ok
    · simp [stop, hS] at h
    · simp only [stop, hS, ne_eq, not_true_eq_false, if_false, Bool.true_eq_false,
        free_buffers, Outcome.ok.injEq, Prod.mk.injEq] at h
      obtain ⟨h1, -⟩ := h
      subst h1
      refine ⟨rfl, rfl, ?_⟩
      intro ok2
      simp [cameraDrop]

/-- Camera state after camStreaming has been stopped successfully. -/
def camAborted : Camera :=
  { state := State.Aborted, resolution := (640, 480), format := [89, 85, 89, 86],
    buffers := [] }

/-- Witness for c9_idempotent at the concrete stopped camera. -/
theorem c9_idempotent_witness :
    camAborted.state = State.Aborted ∧ camAborted.buffers = [] ∧
    cameraDrop camAborted false = camAborted :=
  ⟨(c9_idempotent.2.2 camStreaming camAborted true (by decide) (by decide)).1,
   (c9_idempotent.2.2 camStreaming camAborted true (by decide) (by decide)).2.1,
   (c9_idempotent.2.2 camStreaming camAborted true (by decide) (by decide)).2.2 false⟩

end Rscam
